import Mathlib

/-!
# Web4: login throttle, login protocol and registration password rule

A shallow embedding of `src/routes/auth.js`:

* the object `loginAttempts` (line 59) with the property reads, writes and
  deletes that `POST /login` performs on it (lines 76, 86-90, 94);
* the handler of `POST /login` (lines 70-101);
* the regular expression `passwordRegex` of `POST /register` (line 34).

Collaborators that live outside the file (the user store `User.findOne`,
`bcrypt.compare`, the clock `Date.now()`) are inputs of the handler; the clock is
read twice, on line 76 and on line 89, with two awaits in between.
The body parsers of `src/server.js` (lines 34-35) deliver strings, but also numbers,
booleans, `null`, arrays and objects: a form field is modelled as absent, a string,
or a value that is not a string. Timestamps and counters are natural numbers
(milliseconds since the epoch; counters stay far below 2^53).
Requests are served one after the other.
-/

namespace Web4

/-! ## JavaScript values stored in the properties `count` and `blockedUntil` -/

/-- The JavaScript values that the two properties of an attempt record can hold. -/
inductive Val where
  | undefined
  | null
  | nan
  | num (n : Nat)
  deriving DecidableEq, Repr

/-- ToNumber of a value: `none` stands for NaN; `null` converts to 0, `undefined` to NaN. -/
def Val.toNumber : Val → Option Nat
  | .undefined => none
  | .null => some 0
  | .nan => none
  | .num n => some n

/-- The comparison `v > n`: false as soon as one side is NaN. -/
def Val.gt (v : Val) (n : Nat) : Bool :=
  match v.toNumber with
  | none => false
  | some m => decide (n < m)

/-- The comparison `v >= n`: false as soon as one side is NaN. -/
def Val.ge (v : Val) (n : Nat) : Bool :=
  match v.toNumber with
  | none => false
  | some m => decide (n ≤ m)

/-- The value written back by `v++`: ToNumber of the old value plus one. -/
def Val.succ (v : Val) : Val :=
  match v.toNumber with
  | none => .nan
  | some m => .num (m + 1)

/-- An object with the two properties the handler reads and writes. -/
structure Attempt where
  count : Val
  blockedUntil : Val
  deriving DecidableEq, Repr

/-- The names every plain object inherits from `Object.prototype`. -/
def objectPrototypeKeys : List String :=
  ["constructor", "__defineGetter__", "__defineSetter__", "hasOwnProperty",
   "__lookupGetter__", "__lookupSetter__", "isPrototypeOf", "propertyIsEnumerable",
   "toString", "valueOf", "__proto__", "toLocaleString"]

/-- The object `loginAttempts`: its own properties (the throttle entries) and the
objects it reaches through its prototype (the function `Object` under `constructor`,
`Object.prototype` itself under `__proto__`, and so on; all of them truthy, and
properties can be read and written on them). A read `loginAttempts[k]` sees both, a
`delete` only the own ones. Each object is recorded with the properties written on it;
a `count` written on `Object.prototype` would also show through as the `count` of the
other built-in objects, but the handler only ever increments what it reads there, and
`undefined` and NaN both increment to NaN. -/
structure LoginAttempts where
  own : String → Option Attempt
  inherited : String → Option Attempt

/-- Line 59, `const loginAttempts = {}`: no own property; the inherited names lead to
built-in objects that carry neither `count` nor `blockedUntil`. -/
def loginAttempts : LoginAttempts where
  own := fun _ => none
  inherited := fun k =>
    if k ∈ objectPrototypeKeys then some ⟨.undefined, .undefined⟩ else none

/-- The read `loginAttempts[k]`: the own property if there is one, else the inherited
one, else `undefined` (here `none`). -/
def LoginAttempts.get (a : LoginAttempts) (k : String) : Option Attempt :=
  match a.own k with
  | some o => some o
  | none => a.inherited k

/-- The assignment `loginAttempts[k] = o` of line 86: creates the own property. -/
def LoginAttempts.set (a : LoginAttempts) (k : String) (o : Attempt) : LoginAttempts :=
  { a with own := fun j => if j = k then some o else a.own j }

/-- A property write on the object that `loginAttempts[k]` yields: it lands on the own
entry if there is one and on the inherited object otherwise. With no object at all
JavaScript would throw; the handler does not get there, line 86 having created the
entry. -/
def LoginAttempts.update (a : LoginAttempts) (k : String) (f : Attempt → Attempt) :
    LoginAttempts :=
  match a.own k with
  | some o => { a with own := fun j => if j = k then some (f o) else a.own j }
  | none =>
    match a.inherited k with
    | some o => { a with inherited := fun j => if j = k then some (f o) else a.inherited j }
    | none => a

/-- Line 94, `delete loginAttempts[email]`: removes the own property only. -/
def clear (a : LoginAttempts) (email : String) : LoginAttempts :=
  { a with own := fun j => if j = email then none else a.own j }

/-- Line 76: `loginAttempts[email] && loginAttempts[email].blockedUntil > Date.now()`. -/
def isBlocked (a : LoginAttempts) (email : String) (now : Nat) : Bool :=
  match a.get email with
  | none => false
  | some o => o.blockedUntil.gt now

/-- Lines 86-90: create the entry when the read is falsy, increment `count`, and set
`blockedUntil` once `count >= 5`; `now` is the clock read on line 89. -/
def recordFailure (a : LoginAttempts) (email : String) (now : Nat) : LoginAttempts :=
  let a₁ := if (a.get email).isSome then a else a.set email ⟨.num 0, .null⟩
  let a₂ := a₁.update email (fun o => { o with count := o.count.succ })
  match a₂.get email with
  | none => a₂
  | some o =>
    if o.count.ge 5 then
      a₂.update email (fun o => { o with blockedUntil := .num (now + 15 * 60 * 1000) })
    else a₂

/-- What lines 87-90 make of an attempt record: `count` incremented, and
`blockedUntil` rewritten when the new count is at least 5. -/
def Attempt.bump (o : Attempt) (now : Nat) : Attempt :=
  ⟨o.count.succ, if o.count.succ.ge 5 then .num (now + 15 * 60 * 1000) else o.blockedUntil⟩

/-! ## The handler of `POST /login` -/

/-- A user document as `POST /register` creates it (line 50); `password` holds the
bcrypt hash and is `none` on a document from which the field was projected out. -/
structure User where
  _id : String
  username : String
  email : String
  password : Option String
  profilePicture : String
  deriving DecidableEq, Repr

/-- What the handler sends back. -/
inductive Response where
  | render (status : Nat) (view : String) (error : Option String)
  | redirect (location : String)
  deriving DecidableEq, Repr

/-- A value of `req.body` that is not a string (a number, a boolean, `null`, an array
or an object), given by its JSON text, by what `!v` makes of it (ToBoolean) and by the
property key it turns into in `loginAttempts[v]` (ToPropertyKey). -/
structure NonString where
  json : String
  truthy : Bool
  key : String
  deriving DecidableEq, Repr

/-- A field of `req.body` as the body parsers of `src/server.js` (lines 34-35) leave
it: absent, a string, or a value that is not a string. -/
inductive Field where
  | undefined
  | str (s : String)
  | other (v : NonString)
  deriving DecidableEq, Repr

/-- The test `!x` on a form field. -/
def falsy : Field → Bool
  | .undefined => true
  | .str s => s == ""
  | .other v => !v.truthy

/-- The property key under which `loginAttempts[x]` reads and writes. -/
def Field.key : Field → String
  | .undefined => "undefined"
  | .str s => s
  | .other v => v.key

/-- Calls made to the collaborators, in order. -/
inductive Call where
  | findOne (email : Field)
  | compare (password : Field) (hash : Option String)
  deriving DecidableEq, Repr

/-- The statement through which the handler leaves. -/
inductive Exit where
  | missingField
  | rateLimited
  | noUser
  | wrongPassword
  | success
  | serverError
  deriving DecidableEq, Repr

/-- The fields `email` and `password` of `req.body`. -/
structure Body where
  email : Field
  password : Field
  deriving DecidableEq, Repr

/-- What a request sees of the outside: the user store (`User.findOne` with the
submitted `email`, which may throw), the comparison bcrypt makes of a password string
and a hash, and the two clock reads of lines 76 and 89. -/
structure Env where
  findOne : Field → Except String (Option User)
  compare : String → String → Bool
  nowCheck : Nat
  nowRecord : Nat

/-- Line 84, `bcrypt.compare(password, user.password)`: bcryptjs rejects unless both
arguments are strings, and compares them otherwise. -/
def bcryptCompare (env : Env) (password : Field) (hash : Option String) :
    Except String Bool :=
  match password, hash with
  | .str p, some h => .ok (env.compare p h)
  | _, _ => .error "Illegal arguments"

/-- State after the handler has run, and what it did. -/
structure Outcome where
  loginAttempts : LoginAttempts
  sessionUser : Option User
  response : Response
  calls : List Call
  exit : Exit

/-- Lines 70-101, `router.post("/login", ...)`. `sessionUser` is `req.session.user`. -/
def postLogin (env : Env) (a : LoginAttempts) (sessionUser : Option User) (body : Body) :
    Outcome :=
  if falsy body.email || falsy body.password then
    ⟨a, sessionUser, .render 200 "login" (some "All fields are required"), [],
      .missingField⟩
  else if isBlocked a body.email.key env.nowCheck then
    ⟨a, sessionUser,
      .render 200 "login" (some "Too many failed attempts. Try again later."), [],
      .rateLimited⟩
  else
    match env.findOne body.email with
    | .error _ =>
      ⟨a, sessionUser, .render 500 "login" (some "Server error"), [.findOne body.email],
        .serverError⟩
    | .ok none =>
      ⟨a, sessionUser, .render 200 "login" (some "Invalid credentials"),
        [.findOne body.email], .noUser⟩
    | .ok (some user) =>
      match bcryptCompare env body.password user.password with
      | .error _ =>
        ⟨a, sessionUser, .render 500 "login" (some "Server error"),
          [.findOne body.email, .compare body.password user.password], .serverError⟩
      | .ok true =>
        ⟨clear a body.email.key, some user, .redirect "/dashboard",
          [.findOne body.email, .compare body.password user.password], .success⟩
      | .ok false =>
        ⟨recordFailure a body.email.key env.nowRecord, sessionUser,
          .render 200 "login" (some "Invalid credentials"),
          [.findOne body.email, .compare body.password user.password], .wrongPassword⟩

/-! ## Sequences of login requests -/

/-- One login request together with what it sees of the outside. -/
structure Step where
  env : Env
  sessionUser : Option User
  body : Body

/-- The throttle state reached by a run, with the clock read (line 89) of the latest
failure recorded for each key. -/
structure Trace where
  attempts : LoginAttempts
  lastFailure : String → Option Nat

/-- The run starts from the object of line 59; no failure has been recorded. -/
def Trace.init : Trace := ⟨loginAttempts, fun _ => none⟩

/-- Serve one request and note a recorded failure. -/
def Trace.step (t : Trace) (s : Step) : Trace :=
  let out := postLogin s.env t.attempts s.sessionUser s.body
  { attempts := out.loginAttempts
    lastFailure := fun k =>
      if out.exit = .wrongPassword ∧ s.body.email.key = k then some s.env.nowRecord
      else t.lastFailure k }

/-- Serve the requests one after the other. -/
def Trace.run (t : Trace) (steps : List Step) : Trace :=
  steps.foldl Trace.step t

/-- A login for `email` by a request with both fields filled in, for an account that
exists, with a password that `bcrypt.compare` finds not to match the stored hash. -/
def IsWrongPassword (s : Step) (email : String) : Prop :=
  ∃ password user hash, s.body = ⟨.str email, .str password⟩ ∧ email ≠ "" ∧
    password ≠ "" ∧ s.env.findOne (.str email) = .ok (some user) ∧ user.password = some hash ∧
    s.env.compare password hash = false

/-- The same with a password that matches the stored hash. -/
def IsRightPassword (s : Step) (email : String) : Prop :=
  ∃ password user hash, s.body = ⟨.str email, .str password⟩ ∧ email ≠ "" ∧
    password ≠ "" ∧ s.env.findOne (.str email) = .ok (some user) ∧ user.password = some hash ∧
    s.env.compare password hash = true

/-- The key `k` has no inherited object behind it and `c` failures counted, none of
them blocking: no entry when `c` is 0, else the entry with count `c` and
`blockedUntil` still `null`. -/
def Counted (a : LoginAttempts) (k : String) (c : Nat) : Prop :=
  a.inherited k = none ∧ a.own k = if c = 0 then none else some ⟨.num c, .null⟩

/-- The invariant of the entries of a run: the count is a number, at least 1; below 5
`blockedUntil` is still `null`; from 5 on it is the clock read of the latest recorded
failure for the key plus 15 minutes. -/
def Trace.Inv (t : Trace) : Prop :=
  ∀ k o, t.attempts.own k = some o →
    ∃ c, o.count = .num c ∧ 1 ≤ c ∧
      ((c < 5 ∧ o.blockedUntil = .null) ∨
        (5 ≤ c ∧ ∃ f, t.lastFailure k = some f ∧
          o.blockedUntil = .num (f + 15 * 60 * 1000)))

/-- The states of a throttle key named in the design: no entry. -/
def isClear (a : LoginAttempts) (k : String) : Prop :=
  a.own k = none

/-- Entry with `count` in [1,4] and `blockedUntil` unset. -/
def isAccumulating (a : LoginAttempts) (k : String) : Prop :=
  ∃ c, 1 ≤ c ∧ c ≤ 4 ∧ a.own k = some ⟨.num c, .null⟩

/-- Entry with `count` at least 5 and `blockedUntil` set. -/
def isBlockedState (a : LoginAttempts) (k : String) : Prop :=
  ∃ c t, 5 ≤ c ∧ a.own k = some ⟨.num c, .num t⟩

/-! ## The password rule of `POST /register` -/

/-- The UTF-16 code units of one code point: a JavaScript string is a sequence of
these, and a regular expression without the `u` flag matches one unit at a time. -/
def utf16 (c : Char) : List Nat :=
  if c.toNat < 0x10000 then [c.toNat]
  else [0xD800 + (c.toNat - 0x10000) / 0x400, 0xDC00 + (c.toNat - 0x10000) % 0x400]

/-- The code units of a string. -/
def codeUnits (s : String) : List Nat :=
  s.toList.flatMap utf16

/-- The property `length` of a JavaScript string. -/
def jsLength (s : String) : Nat :=
  (codeUnits s).length

/-- The class `[a-z]`. -/
def isLower (u : Nat) : Bool := decide (97 ≤ u ∧ u ≤ 122)

/-- The class `[A-Z]`. -/
def isUpper (u : Nat) : Bool := decide (65 ≤ u ∧ u ≤ 90)

/-- The class `\d`. -/
def isDigit (u : Nat) : Bool := decide (48 ≤ u ∧ u ≤ 57)

/-- The class `\w`, that is `[A-Za-z0-9_]`. -/
def isWord (u : Nat) : Bool := isLower u || isUpper u || isDigit u || u == 95

/-- ASCII letters and digits. -/
def isAlphanumeric (u : Nat) : Bool := isLower u || isUpper u || isDigit u

/-- The class `[\W_]`: not in `\w`, or the underscore. -/
def isNonWordOrUnderscore (u : Nat) : Bool := !isWord u || u == 95

/-- Line terminators: LF, CR, U+2028, U+2029. -/
def isLineTerminator (u : Nat) : Bool := u == 0x0A || u == 0x0D || u == 0x2028 || u == 0x2029

/-- The atom `.` (no `s` flag): any unit but a line terminator. -/
def dot (u : Nat) : Bool := !isLineTerminator u

/-- The constructs of regular expressions that `passwordRegex` is built from. -/
inductive Regex where
  | startOfInput
  | endOfInput
  | set (cls : Nat → Bool)
  | star (cls : Nat → Bool)
  | atLeast (n : Nat) (cls : Nat → Bool)
  | lookahead (r : Regex)
  | seq (r s : Regex)

/-- Backtracking match of `c*` for a class `c`, at position `pos` with `us` left to
read: take one more unit if the class allows and the rest then matches, else go on
with the continuation `k` from here (the greedy order of the engine). -/
def starK (cls : Nat → Bool) (k : Nat → List Nat → Bool) : Nat → List Nat → Bool
  | pos, [] => k pos []
  | pos, u :: us => (cls u && starK cls k (pos + 1) us) || k pos (u :: us)

/-- Backtracking match of `c{n,}`: `n` units of the class, then `c*`. -/
def atLeastK (cls : Nat → Bool) (k : Nat → List Nat → Bool) : Nat → Nat → List Nat → Bool
  | 0, pos, us => starK cls k pos us
  | _ + 1, _, [] => false
  | n + 1, pos, u :: us => cls u && atLeastK cls k n (pos + 1) us

/-- Whether `r` matches at position `pos`, with `us` left to read, in such a way that
the continuation `k` accepts where the match ends. -/
def Regex.matchK : Regex → Nat → List Nat → (Nat → List Nat → Bool) → Bool
  | .startOfInput, pos, us, k => pos == 0 && k pos us
  | .endOfInput, pos, us, k => us.isEmpty && k pos us
  | .set _, _, [], _ => false
  | .set cls, pos, u :: us, k => cls u && k (pos + 1) us
  | .star cls, pos, us, k => starK cls k pos us
  | .atLeast n cls, pos, us, k => atLeastK cls k n pos us
  | .lookahead r, pos, us, k => r.matchK pos us (fun _ _ => true) && k pos us
  | .seq r s, pos, us, k => r.matchK pos us (fun pos' us' => s.matchK pos' us' k)

/-- The method `test` of a regular expression without flags: a match may start at any
position of the string. -/
def Regex.test (r : Regex) (s : String) : Bool :=
  (List.range ((codeUnits s).length + 1)).any
    (fun i => r.matchK i ((codeUnits s).drop i) (fun _ _ => true))

/-- The look-ahead `(?=.*c)` for a class `c`. -/
def lookaheadFor (cls : Nat → Bool) : Regex :=
  .lookahead (.seq (.star dot) (.set cls))

/-- Line 34: `/^(?=.*[a-z])(?=.*[A-Z])(?=.*\d)(?=.*[\W_]).{8,}$/`. -/
def passwordRegex : Regex :=
  .seq .startOfInput
    (.seq (lookaheadFor isLower)
      (.seq (lookaheadFor isUpper)
        (.seq (lookaheadFor isDigit)
          (.seq (lookaheadFor isNonWordOrUnderscore)
            (.seq (.atLeast 8 dot) .endOfInput)))))

/-- Line 35: `passwordRegex.test(password)`. -/
def passwordRegexTest (password : String) : Bool :=
  passwordRegex.test password

/-- Closed form of `.*c` matched at the start of the input: some unit of the class is
preceded only by units that `.` accepts. -/
def dotStarThen (cls : Nat → Bool) : List Nat → Bool
  | [] => false
  | u :: us => cls u || (dot u && dotStarThen cls us)

/-- Closed form of `.{n,}$` matched at the start of the input: `.` accepts every unit
up to the end, and there are at least `n` of them. -/
def dotsThenEnd (n : Nat) : List Nat → Bool
  | [] => n == 0
  | u :: us => dot u && dotsThenEnd (n - 1) us

/-- The rule in the words of the specification: length at least 8, a lowercase letter,
an uppercase letter, a digit, and a symbol, a symbol being neither alphanumeric nor
an underscore. -/
def specPasswordRule (p : String) : Prop :=
  8 ≤ jsLength p ∧
  (∃ c ∈ p.toList, isLower c.toNat = true) ∧
  (∃ c ∈ p.toList, isUpper c.toNat = true) ∧
  (∃ c ∈ p.toList, isDigit c.toNat = true) ∧
  (∃ c ∈ p.toList, isWord c.toNat = false)

/-! ## Concrete accounts and requests used in the evaluations below -/

/-- An account registered under an ordinary address. -/
def alice : User :=
  ⟨"u1", "alice", "alice@example.com", some "hash-of-Password1!", "/uploads/profile.jpg"⟩

/-- An account registered under the address `constructor`; `POST /register` asks of
the field `email` only that it is not empty (line 30). -/
def carol : User :=
  ⟨"u2", "carol", "constructor", some "hash-of-Password1!", "/uploads/profile.jpg"⟩

/-- A user store holding the two accounts. -/
def demoFindOne (email : Field) : Except String (Option User) :=
  if email = .str "alice@example.com" then .ok (some alice)
  else if email = .str "constructor" then .ok (some carol)
  else .ok none

/-- A stand-in for `bcrypt.compare`: one password matches the one hash. -/
def demoCompare (password hash : String) : Bool :=
  password == "Password1!" && hash == "hash-of-Password1!"

/-- The store and bcrypt stand-in with both clock reads at `t`. -/
def demoEnv (t : Nat) : Env := ⟨demoFindOne, demoCompare, t, t⟩

/-- A login for `email` with a wrong password, served at time `t`. -/
def wrongAt (email : String) (t : Nat) : Step :=
  ⟨demoEnv t, none, ⟨.str email, .str "letmein"⟩⟩

/-- A login for `email` with the right password, served at time `t`. -/
def rightAt (email : String) (t : Nat) : Step :=
  ⟨demoEnv t, none, ⟨.str email, .str "Password1!"⟩⟩

/-- The number 12345678 as a password, as a JSON body delivers it: truthy, and not a
string. -/
def numberPassword : Field :=
  .other ⟨"12345678", true, "12345678"⟩

/-- A throttle map whose only entry blocks alice until time 901000. -/
def aliceBlocked : LoginAttempts :=
  loginAttempts.set "alice@example.com" ⟨.num 5, .num 901000⟩

/-! ## Property reads and writes on `loginAttempts` -/

theorem get_of_own (a : LoginAttempts) (k : String) (o : Attempt) (h : a.own k = some o) :
    a.get k = some o := by
  simp [LoginAttempts.get, h]

theorem get_eq_none_iff (a : LoginAttempts) (k : String) :
    a.get k = none ↔ a.own k = none ∧ a.inherited k = none := by
  unfold LoginAttempts.get
  cases h : a.own k <;> simp

theorem recordFailure_own_self (a : LoginAttempts) (k : String) (now : Nat) :
    (recordFailure a k now).own k =
      match a.own k with
      | some o => some (o.bump now)
      | none =>
        match a.inherited k with
        | some _ => none
        | none => some ⟨.num 1, .null⟩ := by
  unfold recordFailure LoginAttempts.get LoginAttempts.update LoginAttempts.set Attempt.bump
  cases h : a.own k with
  | some o =>
    simp [h]
    split <;> simp_all
  | none =>
    cases hi : a.inherited k with
    | some o => simp [h, hi]; split <;> simp_all
    | none => simp [h, hi, Val.succ, Val.toNumber, Val.ge]

theorem recordFailure_own_other (a : LoginAttempts) (k j : String) (now : Nat)
    (hj : j ≠ k) : (recordFailure a k now).own j = a.own j := by
  unfold recordFailure LoginAttempts.get LoginAttempts.update LoginAttempts.set
  cases h : a.own k with
  | some o =>
    simp [h]
    split <;> simp_all
  | none =>
    cases hi : a.inherited k with
    | some o => simp [h, hi]; split <;> simp_all
    | none => simp [h, hi, Val.succ, Val.toNumber, Val.ge, hj]

theorem recordFailure_inherited (a : LoginAttempts) (k : String) (now : Nat)
    (h : a.own k ≠ none ∨ a.inherited k = none) :
    (recordFailure a k now).inherited = a.inherited := by
  unfold recordFailure LoginAttempts.get LoginAttempts.update LoginAttempts.set
  cases ho : a.own k with
  | some o =>
    simp [ho]
    split <;> simp_all
  | none =>
    have hi : a.inherited k = none := by simpa [ho] using h
    simp [ho, hi, Val.succ, Val.toNumber, Val.ge]

theorem isBlocked_of_own (a : LoginAttempts) (k : String) (o : Attempt) (now : Nat)
    (h : a.own k = some o) : isBlocked a k now = o.blockedUntil.gt now := by
  simp [isBlocked, get_of_own a k o h]

theorem isBlocked_of_get_none (a : LoginAttempts) (k : String) (now : Nat)
    (h : a.get k = none) : isBlocked a k now = false := by
  simp [isBlocked, h]

theorem falsy_str (s : String) (h : s ≠ "") : falsy (.str s) = false := by
  simp [falsy, h]

/-! ## The branches of `POST /login` -/

theorem postLogin_missing (env : Env) (a : LoginAttempts) (su : Option User) (body : Body)
    (h : falsy body.email = true ∨ falsy body.password = true) :
    postLogin env a su body =
      ⟨a, su, .render 200 "login" (some "All fields are required"), [], .missingField⟩ := by
  have hf : (falsy body.email || falsy body.password) = true := by
    rcases h with h | h <;> simp [h]
  simp [postLogin, hf]

theorem postLogin_blocked (env : Env) (a : LoginAttempts) (su : Option User)
    (email : String) (password : Field) (he : email ≠ "") (hp : falsy password = false)
    (hb : isBlocked a email env.nowCheck = true) :
    postLogin env a su ⟨.str email, password⟩ =
      ⟨a, su, .render 200 "login" (some "Too many failed attempts. Try again later."), [],
        .rateLimited⟩ := by
  simp [postLogin, falsy_str, he, hp, hb, Field.key]

theorem postLogin_noUser (env : Env) (a : LoginAttempts) (su : Option User)
    (email password : String) (he : email ≠ "") (hp : password ≠ "")
    (hb : isBlocked a email env.nowCheck = false) (hu : env.findOne (.str email) = .ok none) :
    postLogin env a su ⟨.str email, .str password⟩ =
      ⟨a, su, .render 200 "login" (some "Invalid credentials"), [.findOne (.str email)],
        .noUser⟩ := by
  simp [postLogin, falsy_str, he, hp, hb, hu, Field.key]

theorem postLogin_wrong (env : Env) (a : LoginAttempts) (su : Option User)
    (email password : String) (user : User) (hash : String)
    (he : email ≠ "") (hp : password ≠ "")
    (hb : isBlocked a email env.nowCheck = false)
    (hu : env.findOne (.str email) = .ok (some user)) (hh : user.password = some hash)
    (hc : env.compare password hash = false) :
    postLogin env a su ⟨.str email, .str password⟩ =
      ⟨recordFailure a email env.nowRecord, su,
        .render 200 "login" (some "Invalid credentials"),
        [.findOne (.str email), .compare (.str password) (some hash)], .wrongPassword⟩ := by
  simp [postLogin, falsy_str, he, hp, hb, hu, hh, hc, Field.key, bcryptCompare]

theorem postLogin_right (env : Env) (a : LoginAttempts) (su : Option User)
    (email password : String) (user : User) (hash : String)
    (he : email ≠ "") (hp : password ≠ "")
    (hb : isBlocked a email env.nowCheck = false)
    (hu : env.findOne (.str email) = .ok (some user)) (hh : user.password = some hash)
    (hc : env.compare password hash = true) :
    postLogin env a su ⟨.str email, .str password⟩ =
      ⟨clear a email, some user, .redirect "/dashboard",
        [.findOne (.str email), .compare (.str password) (some hash)], .success⟩ := by
  simp [postLogin, falsy_str, he, hp, hb, hu, hh, hc, Field.key, bcryptCompare]

/-- The handler's response, session, calls and exit depend on the throttle only
through the outcome of the check on line 76. -/
theorem postLogin_congr (env : Env) (a a' : LoginAttempts) (su : Option User) (body : Body)
    (h : isBlocked a body.email.key env.nowCheck = isBlocked a' body.email.key env.nowCheck) :
    (postLogin env a su body).response = (postLogin env a' su body).response ∧
    (postLogin env a su body).sessionUser = (postLogin env a' su body).sessionUser ∧
    (postLogin env a su body).calls = (postLogin env a' su body).calls ∧
    (postLogin env a su body).exit = (postLogin env a' su body).exit := by
  simp only [postLogin, h]
  split
  · simp
  · split
    · simp
    · cases env.findOne body.email with
      | error _ => simp
      | ok found =>
        cases found with
        | none => simp
        | some user =>
          cases hc : bcryptCompare env body.password user.password with
          | error _ => simp [hc]
          | ok b => cases b <;> simp [hc]

/-! ## Claims about a single request -/

/-- C2: a login with both fields filled in, for an email whose entry has a
`blockedUntil` later than the clock read of the check, is answered with the rate-limit
error, makes no call to the user store or to bcrypt, and leaves the whole throttle map
(and the session) as it was, whatever the password (a string or not) and whatever the
store holds. -/
theorem blocked_login_is_rejected_untouched (env : Env) (a : LoginAttempts)
    (sessionUser : Option User) (email : String) (password : Field) (o : Attempt) (t : Nat)
    (hemail : email ≠ "") (hpassword : falsy password = false)
    (hentry : a.own email = some o) (hset : o.blockedUntil = .num t)
    (hfuture : env.nowCheck < t) :
    (postLogin env a sessionUser ⟨.str email, password⟩).response =
        .render 200 "login" (some "Too many failed attempts. Try again later.") ∧
      (postLogin env a sessionUser ⟨.str email, password⟩).exit = .rateLimited ∧
      (postLogin env a sessionUser ⟨.str email, password⟩).calls = [] ∧
      (postLogin env a sessionUser ⟨.str email, password⟩).loginAttempts = a ∧
      (postLogin env a sessionUser ⟨.str email, password⟩).sessionUser = sessionUser := by
  have hb : isBlocked a email env.nowCheck = true := by
    rw [isBlocked_of_own a email o _ hentry, hset]
    simp [Val.gt, Val.toNumber, hfuture]
  rw [postLogin_blocked env a sessionUser email password hemail hpassword hb]
  exact ⟨rfl, rfl, rfl, rfl, rfl⟩

/-- Witness for C2: alice, blocked until 901000, logs in at 5000 with the right
password. -/
theorem blocked_login_is_rejected_untouched_witness :
    (postLogin (demoEnv 5000) aliceBlocked none
        ⟨.str "alice@example.com", .str "Password1!"⟩).response =
        .render 200 "login" (some "Too many failed attempts. Try again later.") ∧
      (postLogin (demoEnv 5000) aliceBlocked none
        ⟨.str "alice@example.com", .str "Password1!"⟩).exit = .rateLimited ∧
      (postLogin (demoEnv 5000) aliceBlocked none
        ⟨.str "alice@example.com", .str "Password1!"⟩).calls = [] ∧
      (postLogin (demoEnv 5000) aliceBlocked none
        ⟨.str "alice@example.com", .str "Password1!"⟩).loginAttempts = aliceBlocked ∧
      (postLogin (demoEnv 5000) aliceBlocked none
        ⟨.str "alice@example.com", .str "Password1!"⟩).sessionUser = none :=
  blocked_login_is_rejected_untouched (demoEnv 5000) aliceBlocked none
    "alice@example.com" (.str "Password1!") ⟨.num 5, .num 901000⟩ 901000
    (by decide) (by decide) (by decide) rfl (by decide)

/-- C5, evaluated: after alice logs in with her password, the value stored as the
session's user is her whole document, and its `password` field is the stored hash. -/
theorem session_user_carries_password_hash :
    (postLogin (demoEnv 1000) loginAttempts none
        ⟨.str "alice@example.com", .str "Password1!"⟩).exit = .success ∧
      (postLogin (demoEnv 1000) loginAttempts none
        ⟨.str "alice@example.com", .str "Password1!"⟩).sessionUser = some alice ∧
      ((postLogin (demoEnv 1000) loginAttempts none
        ⟨.str "alice@example.com", .str "Password1!"⟩).sessionUser.bind
          (fun u => u.password)) = some "hash-of-Password1!" := by
  decide

/-- C6, evaluated at a password that is not a string: a JSON body carries the number
12345678 as the password; neither request is blocked; the login for an email without
an account gets the `Invalid credentials` page with status 200, while the login for
alice's email gets `Server error` with status 500, bcrypt having rejected the number.
The response tells whether the account exists. -/
theorem nonstring_password_reveals_account :
    falsy numberPassword = false ∧
      isBlocked loginAttempts "nobody@example.com" 1000 = false ∧
      isBlocked loginAttempts "alice@example.com" 1000 = false ∧
      (demoEnv 1000).findOne (.str "nobody@example.com") = .ok none ∧
      (demoEnv 1000).findOne (.str "alice@example.com") = .ok (some alice) ∧
      (postLogin (demoEnv 1000) loginAttempts none
        ⟨.str "nobody@example.com", numberPassword⟩).response =
        .render 200 "login" (some "Invalid credentials") ∧
      (postLogin (demoEnv 1000) loginAttempts none
        ⟨.str "alice@example.com", numberPassword⟩).response =
        .render 500 "login" (some "Server error") ∧
      (postLogin (demoEnv 1000) loginAttempts none
        ⟨.str "nobody@example.com", numberPassword⟩).response ≠
        (postLogin (demoEnv 1000) loginAttempts none
          ⟨.str "alice@example.com", numberPassword⟩).response := by
  refine ⟨by decide, by decide, by decide, rfl, rfl, by decide, by decide, by decide⟩

/-- When both passwords are strings, among logins that pass the field check and the
throttle check, one for an email without an account and one for an existing account
with a password that does not match get the same response: view `login`, status 200,
error `Invalid credentials`. -/
theorem unknown_email_and_wrong_password_respond_alike
    (env₁ env₂ : Env) (a₁ a₂ : LoginAttempts) (su₁ su₂ : Option User)
    (email₁ password₁ email₂ password₂ : String) (user : User) (hash : String)
    (he₁ : email₁ ≠ "") (hp₁ : password₁ ≠ "") (he₂ : email₂ ≠ "") (hp₂ : password₂ ≠ "")
    (hb₁ : isBlocked a₁ email₁ env₁.nowCheck = false)
    (hb₂ : isBlocked a₂ email₂ env₂.nowCheck = false)
    (habsent : env₁.findOne (.str email₁) = .ok none)
    (hpresent : env₂.findOne (.str email₂) = .ok (some user)) (hhash : user.password = some hash)
    (hwrong : env₂.compare password₂ hash = false) :
    (postLogin env₁ a₁ su₁ ⟨.str email₁, .str password₁⟩).response =
        (postLogin env₂ a₂ su₂ ⟨.str email₂, .str password₂⟩).response ∧
      (postLogin env₁ a₁ su₁ ⟨.str email₁, .str password₁⟩).response =
        .render 200 "login" (some "Invalid credentials") := by
  rw [postLogin_noUser env₁ a₁ su₁ email₁ password₁ he₁ hp₁ hb₁ habsent,
    postLogin_wrong env₂ a₂ su₂ email₂ password₂ user hash he₂ hp₂ hb₂ hpresent hhash hwrong]
  exact ⟨rfl, rfl⟩

/-- The theorem applies to an unregistered address against alice with a wrong
password. -/
theorem unknown_email_and_wrong_password_respond_alike_witness :
    (postLogin (demoEnv 1000) loginAttempts none
        ⟨.str "nobody@example.com", .str "letmein"⟩).response =
        (postLogin (demoEnv 2000) loginAttempts none
          ⟨.str "alice@example.com", .str "letmein"⟩).response ∧
      (postLogin (demoEnv 1000) loginAttempts none
        ⟨.str "nobody@example.com", .str "letmein"⟩).response =
        .render 200 "login" (some "Invalid credentials") :=
  unknown_email_and_wrong_password_respond_alike (demoEnv 1000) (demoEnv 2000)
    loginAttempts loginAttempts none none "nobody@example.com" "letmein"
    "alice@example.com" "letmein" alice "hash-of-Password1!"
    (by decide) (by decide) (by decide) (by decide) (by decide) (by decide)
    rfl rfl rfl (by decide)

/-- C7: a login that lacks the email or the password, and a login whose email the user
store does not know, leave `loginAttempts` exactly as it was. -/
theorem missing_field_or_unknown_email_leaves_throttle (env : Env) (a : LoginAttempts)
    (sessionUser : Option User) (body : Body)
    (h : falsy body.email = true ∨ falsy body.password = true ∨
      env.findOne body.email = .ok none) :
    (postLogin env a sessionUser body).loginAttempts = a := by
  simp only [postLogin]
  split
  · rfl
  · split
    · rfl
    · rename_i hf _
      have hnone : env.findOne body.email = .ok none := by
        rcases h with h1 | h1 | h1
        · simp [h1] at hf
        · simp [h1] at hf
        · exact h1
      simp [hnone]

/-- Witness for C7: an address without an account, on a map that holds an entry. -/
theorem missing_field_or_unknown_email_leaves_throttle_witness :
    (postLogin (demoEnv 1000) aliceBlocked none
        ⟨.str "nobody@example.com", .str "letmein"⟩).loginAttempts = aliceBlocked :=
  missing_field_or_unknown_email_leaves_throttle (demoEnv 1000) aliceBlocked none
    ⟨.str "nobody@example.com", .str "letmein"⟩
    (Or.inr (Or.inr rfl))

/-- C8: when the entry of the email has a `blockedUntil` that the clock read of the
check has reached, a login with both fields filled in is not rejected by the throttle,
and its response, session, collaborator calls and exit are those the same request gets
on any throttle in which the email has no entry at all; for an existing account this is
the redirect with the account in the session when the password matches the stored hash,
and the `Invalid credentials` page when it does not. -/
theorem elapsed_block_is_evaluated_as_no_entry (env : Env) (a a' : LoginAttempts)
    (sessionUser : Option User) (email password : String) (o : Attempt) (t : Nat)
    (hemail : email ≠ "") (hpassword : password ≠ "")
    (hentry : a.own email = some o) (hset : o.blockedUntil = .num t)
    (helapsed : t ≤ env.nowCheck) (hnone : a'.get email = none) :
    (postLogin env a sessionUser ⟨.str email, .str password⟩).exit ≠ .rateLimited ∧
      (postLogin env a sessionUser ⟨.str email, .str password⟩).response =
        (postLogin env a' sessionUser ⟨.str email, .str password⟩).response ∧
      (postLogin env a sessionUser ⟨.str email, .str password⟩).sessionUser =
        (postLogin env a' sessionUser ⟨.str email, .str password⟩).sessionUser ∧
      (postLogin env a sessionUser ⟨.str email, .str password⟩).calls =
        (postLogin env a' sessionUser ⟨.str email, .str password⟩).calls ∧
      (postLogin env a sessionUser ⟨.str email, .str password⟩).exit =
        (postLogin env a' sessionUser ⟨.str email, .str password⟩).exit ∧
      ∀ user hash, env.findOne (.str email) = .ok (some user) → user.password = some hash →
        (env.compare password hash = true →
          (postLogin env a sessionUser ⟨.str email, .str password⟩).response =
              .redirect "/dashboard" ∧
            (postLogin env a sessionUser ⟨.str email, .str password⟩).sessionUser =
              some user) ∧
        (env.compare password hash = false →
          (postLogin env a sessionUser ⟨.str email, .str password⟩).response =
            .render 200 "login" (some "Invalid credentials")) := by
  have hb : isBlocked a email env.nowCheck = false := by
    rw [isBlocked_of_own a email o _ hentry, hset]
    simp [Val.gt, Val.toNumber, helapsed]
  have hb' : isBlocked a' email env.nowCheck = false := isBlocked_of_get_none a' email _ hnone
  have hcongr := postLogin_congr env a a' sessionUser ⟨.str email, .str password⟩
    (by simp only [Field.key]; rw [hb, hb'])
  refine ⟨?_, hcongr.1, hcongr.2.1, hcongr.2.2.1, hcongr.2.2.2, ?_⟩
  · simp only [postLogin, falsy_str _ hemail, falsy_str _ hpassword, Field.key, hb]
    cases env.findOne (.str email) with
    | error _ => simp
    | ok found =>
      cases found with
      | none => simp
      | some user =>
        cases hc : bcryptCompare env (.str password) user.password with
        | error _ => simp [hc]
        | ok b => cases b <;> simp [hc]
  · intro user hash hu hh
    constructor
    · intro hc
      rw [postLogin_right env a sessionUser email password user hash hemail hpassword hb hu hh hc]
      exact ⟨rfl, rfl⟩
    · intro hc
      rw [postLogin_wrong env a sessionUser email password user hash hemail hpassword hb hu hh hc]

/-- Witness for C8: alice's block ended at 901000; at 901000 her right password is
accepted as on the empty throttle. -/
theorem elapsed_block_is_evaluated_as_no_entry_witness :
    (postLogin (demoEnv 901000) aliceBlocked none
        ⟨.str "alice@example.com", .str "Password1!"⟩).exit ≠ .rateLimited ∧
      (postLogin (demoEnv 901000) aliceBlocked none
        ⟨.str "alice@example.com", .str "Password1!"⟩).response =
        (postLogin (demoEnv 901000) loginAttempts none
          ⟨.str "alice@example.com", .str "Password1!"⟩).response ∧
      (postLogin (demoEnv 901000) aliceBlocked none
        ⟨.str "alice@example.com", .str "Password1!"⟩).response = .redirect "/dashboard" :=
  have h := elapsed_block_is_evaluated_as_no_entry (demoEnv 901000) aliceBlocked
    loginAttempts none "alice@example.com" "Password1!" ⟨.num 5, .num 901000⟩ 901000
    (by decide) (by decide) (by decide) rfl (by decide) (by decide)
  ⟨h.1, h.2.1, ((h.2.2.2.2.2 alice "hash-of-Password1!" rfl rfl).1 (by decide)).1⟩

/-- C9 as stated fails: alice's entry is Blocked (count 5) and its `blockedUntil`
901000 has passed at 1000000; a login with a wrong password leaves the entry with
count 6 and `blockedUntil` 1900000, which is neither Clear nor Accumulating. -/
theorem wrong_password_after_elapsed_block_stays_blocked :
    isBlockedState aliceBlocked "alice@example.com" ∧
      isBlocked aliceBlocked "alice@example.com" 1000000 = false ∧
      (postLogin (demoEnv 1000000) aliceBlocked none
        ⟨.str "alice@example.com", .str "letmein"⟩).loginAttempts.own "alice@example.com" =
        some ⟨.num 6, .num 1900000⟩ ∧
      ¬ (isClear (postLogin (demoEnv 1000000) aliceBlocked none
            ⟨.str "alice@example.com", .str "letmein"⟩).loginAttempts "alice@example.com" ∨
          isAccumulating (postLogin (demoEnv 1000000) aliceBlocked none
            ⟨.str "alice@example.com", .str "letmein"⟩).loginAttempts "alice@example.com") := by
  have hown : (postLogin (demoEnv 1000000) aliceBlocked none
      ⟨.str "alice@example.com", .str "letmein"⟩).loginAttempts.own "alice@example.com" =
      some ⟨.num 6, .num 1900000⟩ := by decide
  refine ⟨⟨5, 901000, by decide, by decide⟩, by decide, hown, ?_⟩
  rintro (h | ⟨c, _, hc, h⟩)
  · rw [isClear, hown] at h
    cases h
  · rw [hown] at h
    cases h

/-- C9, amended: when the entry of the email is Blocked (count `c` at least 5) and its
`blockedUntil` has passed, a login for an existing account with the matching password
deletes the entry (Clear), and one with a non-matching password leaves the entry
Blocked, with count `c + 1` and `blockedUntil` set to the clock read of the failure
plus 15 minutes. -/
theorem login_after_elapsed_block (env : Env) (a : LoginAttempts)
    (sessionUser : Option User) (email password : String) (user : User) (hash : String)
    (c t : Nat) (hemail : email ≠ "") (hpassword : password ≠ "")
    (hentry : a.own email = some ⟨.num c, .num t⟩) (hcount : 5 ≤ c)
    (helapsed : t ≤ env.nowCheck)
    (huser : env.findOne (.str email) = .ok (some user)) (hhash : user.password = some hash) :
    (env.compare password hash = true →
        isClear (postLogin env a sessionUser ⟨.str email, .str password⟩).loginAttempts
          email) ∧
      (env.compare password hash = false →
        (postLogin env a sessionUser ⟨.str email, .str password⟩).loginAttempts.own email =
            some ⟨.num (c + 1), .num (env.nowRecord + 15 * 60 * 1000)⟩ ∧
          isBlockedState
            (postLogin env a sessionUser ⟨.str email, .str password⟩).loginAttempts email) := by
  have hb : isBlocked a email env.nowCheck = false := by
    rw [isBlocked_of_own a email _ _ hentry]
    simp [Val.gt, Val.toNumber, helapsed]
  constructor
  · intro hc
    rw [postLogin_right env a sessionUser email password user hash hemail hpassword hb
      huser hhash hc]
    simp [isClear, clear]
  · intro hc
    rw [postLogin_wrong env a sessionUser email password user hash hemail hpassword hb
      huser hhash hc]
    have hown : (recordFailure a email env.nowRecord).own email =
        some ⟨.num (c + 1), .num (env.nowRecord + 15 * 60 * 1000)⟩ := by
      rw [recordFailure_own_self, hentry]
      have h5 : 5 ≤ c + 1 := by omega
      simp [Attempt.bump, Val.succ, Val.toNumber, Val.ge, h5]
    exact ⟨hown, c + 1, env.nowRecord + 15 * 60 * 1000, by omega, hown⟩

/-- Witness for C9, amended: alice after her block has passed, with the right and
with a wrong password. -/
theorem login_after_elapsed_block_witness :
    isClear (postLogin (demoEnv 1000000) aliceBlocked none
        ⟨.str "alice@example.com", .str "Password1!"⟩).loginAttempts "alice@example.com" ∧
      demoCompare "letmein" "hash-of-Password1!" = false ∧
      (postLogin (demoEnv 1000000) aliceBlocked none
          ⟨.str "alice@example.com", .str "letmein"⟩).loginAttempts.own
          "alice@example.com" = some ⟨.num (5 + 1), .num (1000000 + 15 * 60 * 1000)⟩ ∧
      isBlockedState (postLogin (demoEnv 1000000) aliceBlocked none
          ⟨.str "alice@example.com", .str "letmein"⟩).loginAttempts "alice@example.com" :=
  ⟨(login_after_elapsed_block (demoEnv 1000000) aliceBlocked none "alice@example.com"
      "Password1!" alice "hash-of-Password1!" 5 901000 (by decide) (by decide) (by decide)
      (by decide) (by decide) rfl rfl).1 (by decide),
    by decide,
    (login_after_elapsed_block (demoEnv 1000000) aliceBlocked none "alice@example.com"
      "letmein" alice "hash-of-Password1!" 5 901000 (by decide) (by decide) (by decide)
      (by decide) (by decide) rfl rfl).2 (by decide)⟩

/-! ## Sequences of requests -/

/-- What one request can do to `loginAttempts`: nothing, record a failure for the
submitted email (exit through line 91), or delete its entry (exit through line 96). -/
theorem postLogin_effect (env : Env) (a : LoginAttempts) (su : Option User) (body : Body) :
    ((postLogin env a su body).loginAttempts = a ∧
        (postLogin env a su body).exit ≠ .wrongPassword ∧
        (postLogin env a su body).exit ≠ .success) ∨
      (isBlocked a body.email.key env.nowCheck = false ∧
        (postLogin env a su body).exit = .wrongPassword ∧
        (postLogin env a su body).loginAttempts =
          recordFailure a body.email.key env.nowRecord) ∨
      (isBlocked a body.email.key env.nowCheck = false ∧
        (postLogin env a su body).exit = .success ∧
        (postLogin env a su body).loginAttempts = clear a body.email.key) := by
  simp only [postLogin]
  split
  · simp
  · cases hb : isBlocked a body.email.key env.nowCheck with
    | true => simp
    | false =>
      cases hf : env.findOne body.email with
      | error _ => simp
      | ok found =>
        cases found with
        | none => simp
        | some user =>
          cases hc : bcryptCompare env body.password user.password with
          | error _ => simp [hc]
          | ok b => cases b <;> simp [hc]

theorem step_wrong (t : Trace) (s : Step) (k : String) (hw : IsWrongPassword s k)
    (hb : isBlocked t.attempts k s.env.nowCheck = false) :
    (t.step s).attempts = recordFailure t.attempts k s.env.nowRecord ∧
      (t.step s).lastFailure k = some s.env.nowRecord := by
  obtain ⟨p, u, h, hbody, he, hp, hu, hh, hc⟩ := hw
  have hpost := postLogin_wrong s.env t.attempts s.sessionUser k p u h he hp hb hu hh hc
  rw [← hbody] at hpost
  have hemail : s.body.email.key = k := by rw [hbody]; rfl
  simp [Trace.step, hpost, hemail]

theorem step_right (t : Trace) (s : Step) (k : String) (hr : IsRightPassword s k)
    (hb : isBlocked t.attempts k s.env.nowCheck = false) :
    (t.step s).attempts = clear t.attempts k := by
  obtain ⟨p, u, h, hbody, he, hp, hu, hh, hc⟩ := hr
  have hpost := postLogin_right s.env t.attempts s.sessionUser k p u h he hp hb hu hh hc
  rw [← hbody] at hpost
  simp [Trace.step, hpost]

theorem counted_not_blocked (a : LoginAttempts) (k : String) (c now : Nat)
    (h : Counted a k c) : isBlocked a k now = false := by
  obtain ⟨hi, ho⟩ := h
  by_cases hc : c = 0
  · simp [isBlocked, LoginAttempts.get, ho, hi, hc]
  · simp [isBlocked, LoginAttempts.get, ho, hc, Val.gt, Val.toNumber]

theorem counted_of_get_none (a : LoginAttempts) (k : String) (h : a.get k = none) :
    Counted a k 0 := by
  rw [get_eq_none_iff] at h
  exact ⟨h.2, by simp [h.1]⟩

theorem counted_step_wrong (t : Trace) (s : Step) (k : String) (c : Nat)
    (h : Counted t.attempts k c) (hc : c < 4) (hw : IsWrongPassword s k) :
    Counted (t.step s).attempts k (c + 1) := by
  have hb := counted_not_blocked _ k c s.env.nowCheck h
  obtain ⟨hi, ho⟩ := h
  rw [(step_wrong t s k hw hb).1]
  constructor
  · rw [recordFailure_inherited _ _ _ (Or.inr hi)]
    exact hi
  · rw [recordFailure_own_self, ho]
    by_cases h0 : c = 0
    · simp [h0, hi]
    · have h5 : ¬ 5 ≤ c + 1 := by omega
      simp [h0, Attempt.bump, Val.succ, Val.toNumber, Val.ge, h5]

theorem counted_run_wrong (k : String) (ws : List Step) :
    ∀ (t : Trace) (c : Nat), Counted t.attempts k c → c + ws.length ≤ 4 →
      (∀ s ∈ ws, IsWrongPassword s k) →
      Counted (t.run ws).attempts k (c + ws.length) := by
  induction ws with
  | nil => intro t c h _ _; simpa [Trace.run] using h
  | cons s ws ih =>
    intro t c h hlen hall
    have hlen' : c + (ws.length + 1) ≤ 4 := by simpa using hlen
    have hs := counted_step_wrong t s k c h (by omega) (hall s (by simp))
    have := ih (t.step s) (c + 1) hs (by omega) (fun x hx => hall x (by simp [hx]))
    have e : c + (s :: ws).length = c + 1 + ws.length := by simp; omega
    rw [e]
    simpa [Trace.run] using this

theorem fifth_failure_blocks (t : Trace) (s : Step) (k : String)
    (h : Counted t.attempts k 4) (hw : IsWrongPassword s k) :
    (t.step s).attempts.own k = some ⟨.num 5, .num (s.env.nowRecord + 15 * 60 * 1000)⟩ := by
  have hb := counted_not_blocked _ k 4 s.env.nowCheck h
  rw [(step_wrong t s k hw hb).1, recordFailure_own_self, h.2]
  simp [Attempt.bump, Val.succ, Val.toNumber, Val.ge]

/-- For an email whose read `loginAttempts[email]` is `undefined` at the start, the first
wrong-password login creates the entry with count 1, and after five of them the entry
has count 5 and `blockedUntil` equal to the clock read of the fifth failure plus 15
minutes, so that the check of line 76 reports the email blocked at every earlier time. -/
theorem five_wrong_passwords_block_fresh_key (t : Trace) (email : String)
    (ws : List Step) (s₅ : Step) (hfresh : t.attempts.get email = none)
    (hlen : ws.length = 4) (hws : ∀ s ∈ ws, IsWrongPassword s email)
    (h₅ : IsWrongPassword s₅ email) :
    (∀ s, IsWrongPassword s email → (t.step s).attempts.own email = some ⟨.num 1, .null⟩) ∧
      ((t.run ws).step s₅).attempts.own email =
        some ⟨.num 5, .num (s₅.env.nowRecord + 15 * 60 * 1000)⟩ ∧
      ∀ now, now < s₅.env.nowRecord + 15 * 60 * 1000 →
        isBlocked ((t.run ws).step s₅).attempts email now = true := by
  have h0 := counted_of_get_none _ _ hfresh
  have h4 : Counted (t.run ws).attempts email 4 := by
    have := counted_run_wrong email ws t 0 h0 (by omega) hws
    simpa [hlen] using this
  have h5 := fifth_failure_blocks (t.run ws) s₅ email h4 h₅
  refine ⟨?_, h5, ?_⟩
  · intro s hs
    have := (counted_step_wrong t s email 0 h0 (by omega) hs).2
    simpa using this
  · intro now hnow
    rw [isBlocked_of_own _ _ _ _ h5]
    simp [Val.gt, Val.toNumber, hnow]

/-- For an email whose read `loginAttempts[email]` is `undefined` at the start: after
one to four wrong-password logins and one login with the right password the read is
`undefined` again, and a wrong-password login after that leaves the entry with count 1
and `blockedUntil` `null`. -/
theorem success_resets_fresh_key (t : Trace) (email : String) (ws : List Step)
    (r w : Step) (hfresh : t.attempts.get email = none)
    (hlo : 1 ≤ ws.length) (hhi : ws.length < 5)
    (hws : ∀ s ∈ ws, IsWrongPassword s email) (hr : IsRightPassword r email)
    (hw : IsWrongPassword w email) :
    (t.run ws).attempts.own email = some ⟨.num ws.length, .null⟩ ∧
      ((t.run ws).step r).attempts.get email = none ∧
      (((t.run ws).step r).step w).attempts.own email = some ⟨.num 1, .null⟩ := by
  have h0 := counted_of_get_none _ _ hfresh
  have hn : Counted (t.run ws).attempts email ws.length := by
    have := counted_run_wrong email ws t 0 h0 (by omega) hws
    simpa using this
  have hb := counted_not_blocked _ email _ r.env.nowCheck hn
  have hclear : ((t.run ws).step r).attempts.get email = none := by
    rw [step_right _ r email hr hb, get_eq_none_iff]
    exact ⟨by simp [clear], by simpa [clear] using hn.1⟩
  refine ⟨?_, hclear, ?_⟩
  · have hne : ws.length ≠ 0 := by omega
    simpa [hne] using hn.2
  · have := (counted_step_wrong _ w email 0 (counted_of_get_none _ _ hclear) (by omega) hw).2
    simpa using this

/-- The five-failure theorem applies to alice on the initial `loginAttempts`. -/
theorem five_wrong_passwords_block_fresh_key_witness :
    ((Trace.init.run [wrongAt "alice@example.com" 1000, wrongAt "alice@example.com" 2000,
        wrongAt "alice@example.com" 3000, wrongAt "alice@example.com" 4000]).step
        (wrongAt "alice@example.com" 5000)).attempts.own "alice@example.com" =
      some ⟨.num 5, .num (5000 + 15 * 60 * 1000)⟩ :=
  have hw : ∀ t, IsWrongPassword (wrongAt "alice@example.com" t) "alice@example.com" :=
    fun _ => ⟨"letmein", alice, "hash-of-Password1!", rfl, by decide, by decide, rfl, rfl,
      rfl⟩
  (five_wrong_passwords_block_fresh_key Trace.init "alice@example.com"
    [wrongAt "alice@example.com" 1000, wrongAt "alice@example.com" 2000,
      wrongAt "alice@example.com" 3000, wrongAt "alice@example.com" 4000]
    (wrongAt "alice@example.com" 5000) (by decide) rfl
    (by
      intro s hs
      simp only [List.mem_cons, List.mem_singleton, List.not_mem_nil, or_false] at hs
      rcases hs with h | h | h | h <;> subst h <;> exact hw _)
    (hw 5000)).2.1

/-- The reset theorem applies to alice on the initial `loginAttempts`. -/
theorem success_resets_fresh_key_witness :
    ((Trace.init.run [wrongAt "alice@example.com" 1000,
        wrongAt "alice@example.com" 2000]).step
        (rightAt "alice@example.com" 3000)).attempts.get "alice@example.com" = none ∧
      (((Trace.init.run [wrongAt "alice@example.com" 1000,
        wrongAt "alice@example.com" 2000]).step (rightAt "alice@example.com" 3000)).step
        (wrongAt "alice@example.com" 4000)).attempts.own "alice@example.com" =
        some ⟨.num 1, .null⟩ :=
  have hw : ∀ t, IsWrongPassword (wrongAt "alice@example.com" t) "alice@example.com" :=
    fun _ => ⟨"letmein", alice, "hash-of-Password1!", rfl, by decide, by decide, rfl, rfl,
      rfl⟩
  (success_resets_fresh_key Trace.init "alice@example.com"
    [wrongAt "alice@example.com" 1000, wrongAt "alice@example.com" 2000]
    (rightAt "alice@example.com" 3000) (wrongAt "alice@example.com" 4000) (by decide)
    (by decide) (by decide)
    (by
      intro s hs
      simp only [List.mem_cons, List.mem_singleton, List.not_mem_nil, or_false] at hs
      rcases hs with h | h <;> subst h <;> exact hw _)
    ⟨"Password1!", alice, "hash-of-Password1!", rfl, by decide, by decide, rfl, rfl,
      by decide⟩
    (hw 4000)).2

/-- C1, evaluated at the email `constructor`: carol has an account under it; five
wrong-password logins from the initial `loginAttempts` are each recorded as a failure,
yet no entry exists afterwards, the object the read yields has count NaN and no
`blockedUntil`, the check of line 76 does not report the email blocked, and a sixth
attempt goes through to the password comparison. -/
theorem constructor_email_is_never_blocked :
    IsWrongPassword (wrongAt "constructor" 1000) "constructor" ∧
      loginAttempts.own "constructor" = none ∧
      (Trace.init.step (wrongAt "constructor" 1000)).attempts.own "constructor" = none ∧
      (Trace.init.run [wrongAt "constructor" 1000, wrongAt "constructor" 2000,
        wrongAt "constructor" 3000, wrongAt "constructor" 4000,
        wrongAt "constructor" 5000]).lastFailure "constructor" = some 5000 ∧
      (Trace.init.run [wrongAt "constructor" 1000, wrongAt "constructor" 2000,
        wrongAt "constructor" 3000, wrongAt "constructor" 4000,
        wrongAt "constructor" 5000]).attempts.own "constructor" = none ∧
      (Trace.init.run [wrongAt "constructor" 1000, wrongAt "constructor" 2000,
        wrongAt "constructor" 3000, wrongAt "constructor" 4000,
        wrongAt "constructor" 5000]).attempts.get "constructor" =
          some ⟨.nan, .undefined⟩ ∧
      isBlocked (Trace.init.run [wrongAt "constructor" 1000, wrongAt "constructor" 2000,
        wrongAt "constructor" 3000, wrongAt "constructor" 4000,
        wrongAt "constructor" 5000]).attempts "constructor" 5001 = false ∧
      (postLogin (demoEnv 5001) (Trace.init.run [wrongAt "constructor" 1000,
        wrongAt "constructor" 2000, wrongAt "constructor" 3000, wrongAt "constructor" 4000,
        wrongAt "constructor" 5000]).attempts none
          ⟨.str "constructor", .str "letmein"⟩).exit = .wrongPassword := by
  refine ⟨⟨"letmein", carol, "hash-of-Password1!", rfl, by decide, by decide, rfl, rfl,
    by decide⟩, ?_, ?_, ?_, ?_, ?_, ?_, ?_⟩ <;> decide

/-- C3, evaluated at the email `constructor`: after two wrong-password logins and one
with the right password, a further wrong-password login is recorded as a failure but
leaves no entry for the email; the object the read yields has count NaN, not 1. -/
theorem constructor_email_does_not_restart_at_one :
    IsWrongPassword (wrongAt "constructor" 4000) "constructor" ∧
      IsRightPassword (rightAt "constructor" 3000) "constructor" ∧
      (Trace.init.run [wrongAt "constructor" 1000, wrongAt "constructor" 2000,
        rightAt "constructor" 3000]).attempts.own "constructor" = none ∧
      (Trace.init.run [wrongAt "constructor" 1000, wrongAt "constructor" 2000,
        rightAt "constructor" 3000, wrongAt "constructor" 4000]).lastFailure
          "constructor" = some 4000 ∧
      (Trace.init.run [wrongAt "constructor" 1000, wrongAt "constructor" 2000,
        rightAt "constructor" 3000, wrongAt "constructor" 4000]).attempts.own
          "constructor" = none ∧
      (Trace.init.run [wrongAt "constructor" 1000, wrongAt "constructor" 2000,
        rightAt "constructor" 3000, wrongAt "constructor" 4000]).attempts.get
          "constructor" = some ⟨.nan, .undefined⟩ := by
  refine ⟨⟨"letmein", carol, "hash-of-Password1!", rfl, by decide, by decide, rfl, rfl,
    by decide⟩, ⟨"Password1!", carol, "hash-of-Password1!", rfl, by decide, by decide, rfl,
    rfl, by decide⟩, ?_, ?_, ?_, ?_⟩ <;> decide

theorem inv_init : Trace.init.Inv := by
  intro k o h
  simp [Trace.init, loginAttempts] at h

theorem inv_step (t : Trace) (s : Step) (h : t.Inv) : (t.step s).Inv := by
  intro k o hk
  rcases postLogin_effect s.env t.attempts s.sessionUser s.body with
    ⟨hsame, hnw, _⟩ | ⟨_, hexit, hrec⟩ | ⟨_, hexit, hclr⟩
  · -- nothing written
    have ha : (t.step s).attempts = t.attempts := by simp [Trace.step, hsame]
    have hl : (t.step s).lastFailure k = t.lastFailure k := by simp [Trace.step, hnw]
    rw [ha] at hk
    rw [hl]
    exact h k o hk
  · -- a failure recorded for the submitted email
    have ha : (t.step s).attempts =
        recordFailure t.attempts s.body.email.key s.env.nowRecord := by
      simp [Trace.step, hrec]
    rw [ha] at hk
    by_cases hke : k = s.body.email.key
    · have hl : (t.step s).lastFailure k = some s.env.nowRecord := by
        simp [Trace.step, hexit, hke]
      rw [← hke] at hk
      rw [recordFailure_own_self] at hk
      cases hown : t.attempts.own k with
      | some o₀ =>
        rw [hown] at hk
        obtain ⟨c, hc, hc1, _⟩ := h k o₀ hown
        have hbump : o = o₀.bump s.env.nowRecord := by
          simpa using hk.symm
        refine ⟨c + 1, ?_, by omega, ?_⟩
        · simp [hbump, Attempt.bump, hc, Val.succ, Val.toNumber]
        · by_cases h5 : 5 ≤ c + 1
          · right
            refine ⟨h5, s.env.nowRecord, hl, ?_⟩
            simp [hbump, Attempt.bump, hc, Val.succ, Val.toNumber, Val.ge, h5]
          · left
            have hnull : o₀.blockedUntil = .null := by
              rcases h k o₀ hown with ⟨c', hc', _, ⟨_, hn⟩ | ⟨h5', _⟩⟩
              · exact hn
              · rw [hc] at hc'
                cases hc'
                omega
            refine ⟨by omega, ?_⟩
            simp [hbump, Attempt.bump, hc, Val.succ, Val.toNumber, Val.ge, h5, hnull]
      | none =>
        rw [hown] at hk
        cases hinh : t.attempts.inherited k with
        | some _ => simp [hinh] at hk
        | none =>
          have ho : o = ⟨.num 1, .null⟩ := by simpa [hinh] using hk.symm
          exact ⟨1, by simp [ho], le_refl 1, Or.inl ⟨by omega, by simp [ho]⟩⟩
    · have hl : (t.step s).lastFailure k = t.lastFailure k := by
        have : ¬ s.body.email.key = k := fun h' => hke h'.symm
        simp [Trace.step, this]
      rw [recordFailure_own_other _ _ _ _ hke] at hk
      rw [hl]
      exact h k o hk
  · -- the entry of the submitted email deleted
    have ha : (t.step s).attempts = clear t.attempts s.body.email.key := by
      simp [Trace.step, hclr]
    have hl : (t.step s).lastFailure k = t.lastFailure k := by
      simp [Trace.step, hexit]
    rw [ha] at hk
    rw [hl]
    by_cases hke : k = s.body.email.key
    · simp [clear, hke] at hk
    · exact h k o (by simpa [clear, hke] using hk)

theorem inv_run (steps : List Step) : ∀ t : Trace, t.Inv → (t.run steps).Inv := by
  induction steps with
  | nil => intro t h; simpa [Trace.run] using h
  | cons s steps ih =>
    intro t h
    have := ih (t.step s) (inv_step t s h)
    simpa [Trace.run] using this

/-- C10: after any sequence of login requests from the initial `loginAttempts`, every
entry has a numeric count of at least 1; its `blockedUntil` is `null` when the count is
below 5 and otherwise is the clock read of the latest failure recorded for its key plus
15 minutes; and whatever request comes next, an entry either keeps or raises its count,
or it is deleted by a login for its key that succeeds. -/
theorem throttle_invariant (steps : List Step) :
    (Trace.init.run steps).Inv ∧
      ∀ (s : Step) (k : String) (o : Attempt),
        (Trace.init.run steps).attempts.own k = some o →
        (((Trace.init.run steps).step s).attempts.own k = none ∧
            (postLogin s.env (Trace.init.run steps).attempts s.sessionUser s.body).exit =
              .success ∧
            s.body.email.key = k) ∨
          ∃ o' c c', ((Trace.init.run steps).step s).attempts.own k = some o' ∧
            o.count = .num c ∧ o'.count = .num c' ∧ c ≤ c' := by
  have hinv := inv_run steps Trace.init inv_init
  refine ⟨hinv, ?_⟩
  intro s k o hk
  obtain ⟨c, hc, _, _⟩ := hinv k o hk
  rcases postLogin_effect s.env (Trace.init.run steps).attempts s.sessionUser s.body with
    ⟨hsame, _, _⟩ | ⟨_, _, hrec⟩ | ⟨_, hexit, hclr⟩
  · right
    exact ⟨o, c, c, by simpa [Trace.step, hsame] using hk, hc, hc, le_refl c⟩
  · right
    by_cases hke : k = s.body.email.key
    · refine ⟨o.bump s.env.nowRecord, c, c + 1, ?_, hc, ?_, by omega⟩
      · rw [hke] at hk
        simp [Trace.step, hrec, hke, recordFailure_own_self, hk]
      · simp [Attempt.bump, hc, Val.succ, Val.toNumber]
    · refine ⟨o, c, c, ?_, hc, hc, le_refl c⟩
      simp [Trace.step, hrec, recordFailure_own_other _ _ _ _ hke, hk]
  · by_cases hke : k = s.body.email.key
    · left
      exact ⟨by simp [Trace.step, hclr, clear, hke], hexit, hke.symm⟩
    · right
      exact ⟨o, c, c, by simpa [Trace.step, hclr, clear, hke] using hk, hc, hc, le_refl c⟩

theorem starK_then_set (cls : Nat → Bool) (us : List Nat) :
    ∀ pos, starK dot (fun pos' us' => (Regex.set cls).matchK pos' us' (fun _ _ => true))
      pos us = dotStarThen cls us := by
  induction us with
  | nil => intro pos; simp [starK, dotStarThen, Regex.matchK]
  | cons u us ih =>
    intro pos
    simp only [starK, dotStarThen, Regex.matchK, ih, Bool.and_true]
    exact Bool.or_comm _ _

theorem starK_then_end (us : List Nat) :
    ∀ pos, starK dot (fun _ us' => us'.isEmpty && true) pos us = dotsThenEnd 0 us := by
  induction us with
  | nil => intro pos; simp [starK, dotsThenEnd]
  | cons u us ih =>
    intro pos
    simp only [starK, dotsThenEnd, ih, List.isEmpty_cons, Bool.false_and, Bool.or_false,
      Nat.zero_sub]

theorem atLeastK_then_end (n : Nat) :
    ∀ pos us, atLeastK dot (fun _ us' => us'.isEmpty && true) n pos us =
      dotsThenEnd n us := by
  induction n with
  | zero => intro pos us; simp only [atLeastK, starK_then_end]
  | succ n ih =>
    intro pos us
    cases us with
    | nil => simp [atLeastK, dotsThenEnd]
    | cons u us => simp only [atLeastK, dotsThenEnd, ih, Nat.add_sub_cancel]

/-- The match of `passwordRegex` can only start at position 0, and there it amounts to
the four look-aheads and the final run of `.` in closed form. -/
theorem passwordRegexTest_eq (p : String) :
    passwordRegexTest p =
      (dotStarThen isLower (codeUnits p) && dotStarThen isUpper (codeUnits p) &&
        dotStarThen isDigit (codeUnits p) &&
        dotStarThen isNonWordOrUnderscore (codeUnits p) && dotsThenEnd 8 (codeUnits p)) := by
  have hat : ∀ i, passwordRegex.matchK i ((codeUnits p).drop i) (fun _ _ => true) =
      (i == 0 && (dotStarThen isLower ((codeUnits p).drop i) &&
        (dotStarThen isUpper ((codeUnits p).drop i) &&
        (dotStarThen isDigit ((codeUnits p).drop i) &&
        (dotStarThen isNonWordOrUnderscore ((codeUnits p).drop i) &&
          dotsThenEnd 8 ((codeUnits p).drop i)))))) := by
    intro i
    simp only [passwordRegex, lookaheadFor, Regex.matchK, starK_then_set, atLeastK_then_end]
  rw [Bool.eq_iff_iff]
  unfold passwordRegexTest Regex.test
  simp only [List.any_eq_true, List.mem_range, hat, Bool.and_eq_true, beq_iff_eq]
  constructor
  · rintro ⟨i, _, hi, h⟩
    subst hi
    simpa [and_assoc] using h
  · intro h
    exact ⟨0, by omega, rfl, by simpa [and_assoc] using h⟩

theorem dotsThenEnd_iff (us : List Nat) :
    ∀ n, dotsThenEnd n us = true ↔ (∀ u ∈ us, dot u = true) ∧ n ≤ us.length := by
  induction us with
  | nil => intro n; simp [dotsThenEnd]
  | cons u us ih =>
    intro n
    simp only [dotsThenEnd, Bool.and_eq_true, ih, List.mem_cons, forall_eq_or_imp,
      List.length_cons]
    constructor
    · rintro ⟨hu, hall, hn⟩
      exact ⟨⟨hu, hall⟩, by omega⟩
    · rintro ⟨⟨hu, hall⟩, hn⟩
      exact ⟨hu, hall, by omega⟩

theorem dotStarThen_iff (cls : Nat → Bool) (us : List Nat) (h : ∀ u ∈ us, dot u = true) :
    dotStarThen cls us = true ↔ ∃ u ∈ us, cls u = true := by
  induction us with
  | nil => simp [dotStarThen]
  | cons u us ih =>
    have hu : dot u = true := h u (by simp)
    have ih' := ih (fun v hv => h v (by simp [hv]))
    simp [dotStarThen, hu, ih']

/-- A class that does not tell the units from 0xD800 on apart holds of some unit of a
code point exactly when it holds of the code point. -/
theorem exists_utf16_iff (P : Nat → Bool)
    (hP : ∀ u v, 0xD800 ≤ u → 0xD800 ≤ v → P u = P v) (c : Char) :
    (∃ u ∈ utf16 c, P u = true) ↔ P c.toNat = true := by
  unfold utf16
  split
  · simp
  · rename_i hc
    have h1 := hP (0xD800 + (c.toNat - 0x10000) / 0x400) c.toNat (by omega) (by omega)
    have h2 := hP (0xDC00 + (c.toNat - 0x10000) % 0x400) c.toNat (by omega) (by omega)
    simp [h1, h2]

theorem exists_codeUnits_iff (P : Nat → Bool)
    (hP : ∀ u v, 0xD800 ≤ u → 0xD800 ≤ v → P u = P v) (p : String) :
    (∃ u ∈ codeUnits p, P u = true) ↔ ∃ c ∈ p.toList, P c.toNat = true := by
  unfold codeUnits
  simp only [List.mem_flatMap]
  constructor
  · rintro ⟨u, ⟨c, hc, hu⟩, hPu⟩
    exact ⟨c, hc, (exists_utf16_iff P hP c).1 ⟨u, hu, hPu⟩⟩
  · rintro ⟨c, hc, hPc⟩
    obtain ⟨u, hu, hPu⟩ := (exists_utf16_iff P hP c).2 hPc
    exact ⟨u, ⟨c, hc, hu⟩, hPu⟩

theorem forall_dot_codeUnits_iff (p : String) :
    (∀ u ∈ codeUnits p, dot u = true) ↔ ∀ c ∈ p.toList, isLineTerminator c.toNat = false := by
  have h := exists_codeUnits_iff isLineTerminator
    (by
      intro u v hu hv
      have hu' : isLineTerminator u = false := by simp [isLineTerminator]; omega
      have hv' : isLineTerminator v = false := by simp [isLineTerminator]; omega
      rw [hu', hv']) p
  constructor
  · intro hall c hc
    by_contra hcon
    obtain ⟨u, hu, hlt⟩ := h.2 ⟨c, hc, by simpa using hcon⟩
    have := hall u hu
    simp [dot, hlt] at this
  · intro hall u hu
    by_contra hcon
    obtain ⟨c, hc, hlt⟩ := h.1 ⟨u, hu, by simpa [dot] using hcon⟩
    have := hall c hc
    simp [hlt] at this

theorem isNonWordOrUnderscore_eq (u : Nat) :
    isNonWordOrUnderscore u = !isAlphanumeric u := by
  unfold isNonWordOrUnderscore isWord isAlphanumeric
  cases hb : (u == 95) with
  | true =>
    have h : u = 95 := by simpa using hb
    subst h
    decide
  | false => simp

theorem isLower_high (u : Nat) (h : 0xD800 ≤ u) : isLower u = false := by
  simp [isLower]; omega

theorem isUpper_high (u : Nat) (h : 0xD800 ≤ u) : isUpper u = false := by
  simp [isUpper]; omega

theorem isDigit_high (u : Nat) (h : 0xD800 ≤ u) : isDigit u = false := by
  simp [isDigit]; omega


/-- C4 as stated fails in both directions: `Password1_` has no character that is
neither alphanumeric nor an underscore, yet the check accepts it; `Password1!` followed
by a line feed meets every condition of the stated rule, yet the check rejects it. -/
theorem password_rule_counterexample :
    passwordRegexTest "Password1_" = true ∧ ¬ specPasswordRule "Password1_" ∧
      passwordRegexTest "Password1!\n" = false ∧ specPasswordRule "Password1!\n" := by
  refine ⟨by decide, ?_, by decide, ?_⟩
  · simp [specPasswordRule, isWord, isLower, isUpper, isDigit]
  · refine ⟨by decide, ⟨'a', by simp, by decide⟩, ⟨'P', by simp, by decide⟩,
      ⟨'1', by simp, by decide⟩, ⟨'!', by simp, by decide⟩⟩

/-- C4, amended: the check accepts a password exactly when it contains no line
terminator (LF, CR, U+2028, U+2029), has at least 8 UTF-16 code units, and contains a
letter a-z, a letter A-Z, a digit 0-9 and a character that is not an ASCII letter or
digit (the underscore counts as such a character); `password1` is rejected and
`Password1!` is accepted. -/
theorem passwordRegexTest_iff :
    (∀ p : String, passwordRegexTest p = true ↔
      (∀ c ∈ p.toList, isLineTerminator c.toNat = false) ∧ 8 ≤ jsLength p ∧
      (∃ c ∈ p.toList, isLower c.toNat = true) ∧
      (∃ c ∈ p.toList, isUpper c.toNat = true) ∧
      (∃ c ∈ p.toList, isDigit c.toNat = true) ∧
      (∃ c ∈ p.toList, isAlphanumeric c.toNat = false)) ∧
    passwordRegexTest "password1" = false ∧ passwordRegexTest "Password1!" = true := by
  refine ⟨?_, by decide, by decide⟩
  intro p
  have hlow := exists_codeUnits_iff isLower
    (by intro u v hu hv; rw [isLower_high u hu, isLower_high v hv]) p
  have hupp := exists_codeUnits_iff isUpper
    (by intro u v hu hv; rw [isUpper_high u hu, isUpper_high v hv]) p
  have hdig := exists_codeUnits_iff isDigit
    (by intro u v hu hv; rw [isDigit_high u hu, isDigit_high v hv]) p
  have hsym := exists_codeUnits_iff isNonWordOrUnderscore
    (by
      intro u v hu hv
      simp [isNonWordOrUnderscore_eq, isAlphanumeric, isLower_high u hu, isUpper_high u hu,
        isDigit_high u hu, isLower_high v hv, isUpper_high v hv, isDigit_high v hv]) p
  simp only [isNonWordOrUnderscore_eq, Bool.not_eq_true'] at hsym
  have hdots := forall_dot_codeUnits_iff p
  rw [passwordRegexTest_eq]
  unfold jsLength
  simp only [Bool.and_eq_true, dotsThenEnd_iff]
  constructor
  · rintro ⟨⟨⟨⟨h1, h2⟩, h3⟩, h4⟩, hall, hlen⟩
    rw [dotStarThen_iff _ _ hall] at h1 h2 h3 h4
    simp only [isNonWordOrUnderscore_eq, Bool.not_eq_true'] at h4
    exact ⟨hdots.1 hall, hlen, hlow.1 h1, hupp.1 h2, hdig.1 h3, hsym.1 h4⟩
  · rintro ⟨hlt, hlen, h1, h2, h3, h4⟩
    have hall := hdots.2 hlt
    rw [dotStarThen_iff _ _ hall, dotStarThen_iff _ _ hall, dotStarThen_iff _ _ hall,
      dotStarThen_iff _ _ hall]
    simp only [isNonWordOrUnderscore_eq, Bool.not_eq_true']
    exact ⟨⟨⟨⟨hlow.2 h1, hupp.2 h2⟩, hdig.2 h3⟩, hsym.2 h4⟩, hall, hlen⟩

end Web4
